import Mathlib

/-!
# Verification of the WebCrawler scraper module

A shallow embedding, in Lean 4, of the content-admission and deduplication
core of the WebCrawler repository (`scraper.py`), together with theorems
settling the specified behavioural claims.

Modelling conventions:
* Python `int` values are modelled as `Nat`; the 64-bit mask
  `& 0xFFFFFFFFFFFFFFFF` is `% 2 ^ 64`.
* Python `str` is modelled as Lean `String` (a sequence of code points);
  `bytes` as `List Nat`.  `str.lower`, `str.strip` and the regexes are
  modelled for ASCII text, which is the domain the crawler operates on.
* Python sets are modelled as `Finset`; `collections.Counter` over words is
  modelled as a `Multiset String`.
* Fallible Python code is modelled in `Except PyErr`; raising an exception is
  returning `.error`, a `try/except T` block maps `.error T` to its handler's
  result and lets every other error propagate.
* The float comparison `intersection / union >= 0.95` is modelled exactly over
  `ℚ` (equivalently by the cross-multiplied `19 * union ≤ 20 * intersection`);
  for the set sizes arising in a crawl the double-precision division in the
  source is exact enough to coincide with the rational comparison.
* External collaborators that are not part of this repository (BeautifulSoup's
  HTML parsing, `urllib.parse.urljoin`) are oracle parameters bundled in
  `Oracles`; the Python standard library URL functions actually inspected by
  the claims (`urlparse`, `urldefrag`, `parse_qs` key extraction) are embedded
  directly, following CPython's algorithm for ASCII input.
-/

set_option maxRecDepth 8000

namespace WebCrawler

/-- Python exception kinds relevant to the embedded code: `urlparse` raises
`ValueError` on a netloc with unbalanced square brackets, and `is_valid`
catches exactly `TypeError`. -/
inductive PyErr where
  | typeError : PyErr
  | valueError : PyErr
deriving DecidableEq, Repr

/-- `djb2_hash` from `scraper.py` (lines 197-209): fold `h := h * 33 + ord c`
starting from 5381, masked to 64 bits after the loop.  Masking at the end
equals masking each step, and we transcribe the source's final mask. -/
def djb2_hash (text : String) : Nat :=
  (text.toList.foldl (fun h c => ((h <<< 5) + h) + c.toNat) 5381) % (2 ^ 64)

/-- `djb2_hash_bytes` from `scraper.py` (lines 212-221): the same fold over the
raw response bytes. -/
def djb2_hash_bytes (data : List Nat) : Nat :=
  (data.foldl (fun h b => ((h <<< 5) + h) + b) 5381) % (2 ^ 64)

/-- `MAX_SIZE` from `scraper.py` (line 187). -/
def MAX_SIZE : Nat := 1000000

/-- Python `str.lower`, modelled for ASCII text. -/
def pyLower (s : String) : String :=
  String.mk (s.toList.map Char.toLower)

/-- Is the first list a prefix of the second?  (Plain recursion, used to model
Python's `str.startswith`.) -/
def listLeads : List Char → List Char → Bool
  | [], _ => true
  | _ :: _, [] => false
  | a :: as, b :: bs => a = b && listLeads as bs

/-- Python `str.startswith`. -/
def pyStartsWith (s pre : String) : Bool :=
  listLeads pre.toList s.toList

/-- Python `str.endswith`. -/
def pyEndsWith (s suf : String) : Bool :=
  listLeads suf.toList.reverse s.toList.reverse

/-- Python `str.strip()` with no argument: remove whitespace from both ends
(modelled for ASCII whitespace). -/
def pyTrim (s : String) : String :=
  String.mk (((s.toList.dropWhile Char.isWhitespace).reverse.dropWhile
    Char.isWhitespace).reverse)

/-- `STOPWORDS` from `scraper.py` (lines 9-184), transcribed verbatim. -/
def STOPWORDS : List String :=
  ["a", "about", "above", "after", "again", "against", "all", "am", "an",
   "and", "any", "are", "aren't", "as", "at", "be", "because", "been",
   "before", "being", "below", "between", "both", "but", "by", "can't",
   "cannot", "could", "couldn't", "did", "didn't", "do", "does", "doesn't",
   "doing", "don't", "down", "during", "each", "few", "for", "from",
   "further", "had", "hadn't", "has", "hasn't", "have", "haven't", "having",
   "he", "he'd", "he'll", "he's", "her", "here", "here's", "hers", "herself",
   "him", "himself", "his", "how", "how's", "i", "i'd", "i'll", "i'm",
   "i've", "if", "in", "into", "is", "isn't", "it", "it's", "its", "itself",
   "let's", "me", "more", "most", "mustn't", "my", "myself", "no", "nor",
   "not", "of", "off", "on", "once", "only", "or", "other", "ought", "our",
   "ours", "ourselves", "out", "over", "own", "same", "shan't", "she",
   "she'd", "she'll", "she's", "should", "shouldn't", "so", "some", "such",
   "than", "that", "that's", "the", "their", "theirs", "them", "themselves",
   "then", "there", "there's", "these", "they", "they'd", "they'll",
   "they're", "they've", "this", "those", "through", "to", "too", "under",
   "until", "up", "very", "was", "wasn't", "we", "we'd", "we'll", "we're",
   "we've", "were", "weren't", "what", "what's", "when", "when's", "where",
   "where's", "which", "while", "who", "who's", "whom", "why", "why's",
   "with", "won't", "would", "wouldn't", "you", "you'd", "you'll", "you're",
   "you've", "your", "yours", "yourself", "yourselves"]

/-- The stop-word test `w not in STOPWORDS` used on line 332 of
`scraper.py`. -/
def not_stopword (w : String) : Bool :=
  ! STOPWORDS.contains w

/-- A Python `\w` word character, modelled for ASCII text: letter, digit or
underscore. -/
def pyWordChar (c : Char) : Bool :=
  c.isAlpha || c.isDigit || c = '_'

/-- `tokenize` from `scraper.py` (lines 289-296): lowercase the text and apply
`re.findall` with pattern `\b[a-zA-Z]{2,}\b`.  A match of that pattern is
exactly a maximal run of word characters that is entirely alphabetic and has
length at least two (an interior position between two word characters is never
a `\b` boundary), so we extract the maximal word-character runs and keep the
fully alphabetic ones of length ≥ 2. -/
def tokenize (text : String) : List String :=
  (((pyLower text).toList.splitOnP (fun c => ! pyWordChar c)).filterMap
    (fun run =>
      if 2 ≤ run.length ∧ run.all Char.isAlpha then some (String.mk run)
      else none))

/-- The sampled trigram fingerprint built inside `is_near_duplicate`
(`scraper.py` lines 250-254): hash each contiguous 3-token shingle with DJB2
and keep the hash values divisible by 4. -/
def nd_fingerprint (tokens : List String) : Finset Nat :=
  (((List.range (tokens.length - 2)).map
      (fun i => djb2_hash (" ".intercalate ((tokens.drop i).take 3)))).toFinset).filter
    (fun h => h % 4 = 0)

/-- `is_near_duplicate` from `scraper.py` (lines 224-267), with the global
`NEAR_DUPLICATE_FINGERPRINTS` set passed and returned explicitly, and the
fingerprint construction of lines 250-254 factored out as `nd_fingerprint`.
The threshold comparison `intersection / union >= 0.95` (with the guard
`union > 0`) is the exact cross-multiplied form `19 * union ≤ 20 *
intersection`. -/
def is_near_duplicate (tokens : List String) (store : Finset (Finset Nat)) :
    Bool × Finset (Finset Nat) :=
  if tokens.length < 10 then (false, store)
  else if nd_fingerprint tokens = ∅ then (false, store)
  else if ∃ seen ∈ store,
      0 < (nd_fingerprint tokens ∪ seen).card ∧
      19 * (nd_fingerprint tokens ∪ seen).card ≤
        20 * (nd_fingerprint tokens ∩ seen).card then
    (true, store)
  else (false, insert (nd_fingerprint tokens) store)

/-- Jaccard similarity of two finite sets of hash values, as the rational
intersection size over union size used by the specification. -/
def jaccardQ (f g : Finset Nat) : ℚ :=
  ((f ∩ g).card : ℚ) / ((f ∪ g).card : ℚ)

/-- Split a character list at the first occurrence of `c`, returning the parts
before and after it (the separator removed), or `none` when `c` is absent. -/
def splitAtFirst (c : Char) : List Char → Option (List Char × List Char)
  | [] => none
  | x :: xs =>
    if x = c then some ([], xs)
    else (splitAtFirst c xs).map (fun p => (x :: p.1, p.2))

/-- Split a character list at the last occurrence of `c` (via the first
occurrence in the reversed list). -/
def splitLast (c : Char) (cs : List Char) : Option (List Char × List Char) :=
  (splitAtFirst c cs.reverse).map (fun p => (p.2.reverse, p.1.reverse))

/-- The Python substring test `pat in s`. -/
def strContains (s pat : String) : Bool :=
  decide (List.IsInfix pat.toList s.toList)

/-- `urllib.parse.urldefrag`, modelled for ordinary URLs: split at the first
number sign into the URL without its fragment and the fragment. -/
def urldefrag (url : String) : String × String :=
  match splitAtFirst '#' url.toList with
  | none => (url, "")
  | some (a, b) => (String.mk a, String.mk b)

/-- Split a character list at the first occurrence of the three-character
scheme separator `://`, returning the parts before and after it. -/
def splitSchemeSep : List Char → Option (List Char × List Char)
  | [] => none
  | ':' :: '/' :: '/' :: rest => some ([], rest)
  | c :: rest => (splitSchemeSep rest).map (fun p => (c :: p.1, p.2))

/-- Modelled from the spec: the URL Normalizer (`normalize`, imported in
`scraper.py` from the repository's `utils` package, whose defining file is not
present under `src/`).  Per spec §4.1 it strips the fragment component,
lowercases the scheme and host and removes a default port; the remaining
canonicalization rules are declared an implementation choice, subject to being
deterministic and idempotent. -/
def normalize (url : String) : String :=
  let u := (urldefrag url).1
  match splitSchemeSep u.toList with
  | none => u
  | some (sch, tail) =>
    let netloc := tail.takeWhile (fun c => ! (c = '/' || c = '?'))
    let after := String.mk (tail.dropWhile (fun c => ! (c = '/' || c = '?')))
    let scheme := String.mk (sch.map Char.toLower)
    let host0 := String.mk (netloc.map Char.toLower)
    let host :=
      if scheme = "http" && pyEndsWith host0 ":80" then
        String.mk (host0.toList.take (host0.toList.length - 3))
      else if scheme = "https" && pyEndsWith host0 ":443" then
        String.mk (host0.toList.take (host0.toList.length - 4))
      else host0
    scheme ++ "://" ++ host ++ after

/-- The result of BeautifulSoup parsing, as consumed by `extract_next_links`:
the page text (`soup.get_text`) and the `href` attributes of the anchor
elements (`soup.find_all("a", href=True)`), in document order. -/
structure Soup where
  text : String
  anchors : List String

/-- External collaborators of the scraper that live outside this repository:
BeautifulSoup's HTML parser and `urllib.parse.urljoin` (which may raise
`ValueError`, the one exception `extract_next_links` catches per anchor). -/
structure Oracles where
  parseHtml : List Nat → Soup
  urljoin : String → String → Except PyErr String

/-- `resp.raw_response`: effective URL after redirects, `Content-Type` header
and raw body bytes. -/
structure RawResponse where
  url : String
  contentType : Option String
  content : List Nat

/-- The response object handed to `extract_next_links`. -/
structure Response where
  status : Nat
  raw_response : Option RawResponse

/-- The `LONGEST_PAGE` record of `scraper.py` (line 192). -/
structure LongestPage where
  url : Option String
  word_count : Nat
deriving DecidableEq

/-- The process-wide mutable state of `scraper.py` touched by
`extract_next_links` (lines 190-194), passed explicitly. -/
structure CrawlState where
  CONTENT_HASHES : Finset Nat
  NEAR_DUPLICATE_FINGERPRINTS : Finset (Finset Nat)
  TOTAL_UNIQUE_PAGES : Finset String
  WORD_FREQUENCIES : Multiset String
  LONGEST_PAGE : LongestPage
deriving DecidableEq

/-- The module-level initial values of the global state (lines 190-194). -/
def initial_state : CrawlState :=
  ⟨∅, ∅, ∅, 0, ⟨none, 0⟩⟩

/-- The stop-word-filtered token list of a page body, as computed on lines
331-332 of `scraper.py` (page text, tokenized, stop words removed). -/
def filtered_words (o : Oracles) (html : List Nat) : List String :=
  (tokenize (o.parseHtml html).text).filter not_stopword

/-- `extract_next_links` from `scraper.py` (lines 299-364), with the global
state passed and returned explicitly.  `list(set(links))` returns the distinct
collected links in an unspecified (hash-dependent) order; it is modelled as
`List.dedup`, which is faithful up to that order. -/
def extract_next_links (o : Oracles) (url : String) (resp : Option Response)
    (s : CrawlState) : List String × CrawlState :=
  match resp with
  | none => ([], s)
  | some r =>
    match r.raw_response with
    | none => ([], s)
    | some rr =>
      if r.status ≠ 200 then ([], s)
      else
        let c_type := pyLower (rr.contentType.getD "")
        if ¬ strContains c_type "text/html" then ([], s)
        else
          let html := rr.content
          let content_hash := djb2_hash_bytes html
          if content_hash ∈ s.CONTENT_HASHES then ([], s)
          else
            let s1 : CrawlState :=
              { s with CONTENT_HASHES := insert content_hash s.CONTENT_HASHES }
            let soup := o.parseHtml html
            let words := (tokenize soup.text).filter not_stopword
            let word_count := words.length
            if word_count < 50 then ([], s1)
            else if word_count < 100 ∧ MAX_SIZE < html.length then ([], s1)
            else
              let nd := is_near_duplicate words s1.NEAR_DUPLICATE_FINGERPRINTS
              let s2 : CrawlState :=
                { s1 with NEAR_DUPLICATE_FINGERPRINTS := nd.2 }
              if nd.1 then ([], s2)
              else
                let s3 : CrawlState :=
                  { s2 with
                    TOTAL_UNIQUE_PAGES := insert rr.url s2.TOTAL_UNIQUE_PAGES,
                    WORD_FREQUENCIES := s2.WORD_FREQUENCIES + (words : Multiset String),
                    LONGEST_PAGE :=
                      if s2.LONGEST_PAGE.word_count < word_count then
                        ⟨some rr.url, word_count⟩
                      else s2.LONGEST_PAGE }
                let base := if rr.url = "" then url else rr.url
                let links := soup.anchors.filterMap (fun a =>
                  let raw := pyTrim a
                  if pyStartsWith raw "mailto:" || pyStartsWith raw "javascript:" ||
                      pyStartsWith raw "tel:" then none
                  else
                    match o.urljoin base raw with
                    | .error _ => none
                    | .ok absolute_url => some (normalize (urldefrag absolute_url).1))
                (links.dedup, s3)

/-- Run a sequence of `(requested_url, response)` calls through the pipeline,
threading the global state. -/
def runCalls (o : Oracles) (calls : List (String × Option Response))
    (s : CrawlState) : CrawlState :=
  calls.foldl (fun st c => (extract_next_links o c.1 c.2 st).2) s

/-- The six components returned by `urllib.parse.urlparse`. -/
structure ParseResult where
  scheme : String
  netloc : String
  path : String
  params : String
  query : String
  fragment : String
deriving DecidableEq, Repr

/-- A WHATWG C0-control-or-space character, stripped from both ends of a URL
by CPython's `urlsplit`. -/
def isC0orSpace (c : Char) : Bool :=
  c.toNat ≤ 32

/-- Strip C0-control-or-space characters from both ends. -/
def stripC0 (cs : List Char) : List Char :=
  ((cs.dropWhile isC0orSpace).reverse.dropWhile isC0orSpace).reverse

/-- A character allowed in a URL scheme (CPython `scheme_chars`). -/
def schemeChar (c : Char) : Bool :=
  c.isAlpha || c.isDigit || c = '+' || c = '-' || c = '.'

/-- `urllib.parse.urlsplit`, following CPython for ASCII input: strip unsafe
characters, split off a scheme when the text before the first colon is a valid
scheme starting with a letter, take the netloc after `//` up to the next
`/`, `?` or `#`, raise `ValueError` on a netloc with unbalanced square
brackets, then split off the fragment at the first `#` and the query at the
first `?`. -/
def urlsplit (url : String) : Except PyErr ParseResult :=
  let cs := (stripC0 url.toList).filter (fun c => ! (c = '\t' || c = '\r' || c = '\n'))
  let schemeRest : List Char × List Char :=
    match splitAtFirst ':' cs with
    | some (before, after) =>
      match before with
      | [] => ([], cs)
      | b :: bs =>
        if b.isAlpha && (b :: bs).all schemeChar then ((b :: bs).map Char.toLower, after)
        else ([], cs)
    | none => ([], cs)
  let scheme := schemeRest.1
  let netlocRest : List Char × List Char :=
    match schemeRest.2 with
    | '/' :: '/' :: r =>
      (r.takeWhile (fun c => ! (c = '/' || c = '?' || c = '#')),
       r.dropWhile (fun c => ! (c = '/' || c = '?' || c = '#')))
    | rest => ([], rest)
  let netloc := netlocRest.1
  if (('[' ∈ netloc) ∧ (']' ∉ netloc)) ∨ ((']' ∈ netloc) ∧ ('[' ∉ netloc)) then
    .error .valueError
  else
    let urlFrag : List Char × List Char :=
      match splitAtFirst '#' netlocRest.2 with
      | some (a, b) => (a, b)
      | none => (netlocRest.2, [])
    let pathQuery : List Char × List Char :=
      match splitAtFirst '?' urlFrag.1 with
      | some (a, b) => (a, b)
      | none => (urlFrag.1, [])
    .ok ⟨String.mk scheme, String.mk netloc, String.mk pathQuery.1, "",
         String.mk pathQuery.2, String.mk urlFrag.2⟩

/-- CPython `_splitparams`: split the path's parameters at the first `;` of
its last `/`-segment (or of the whole path when it has no slash). -/
def splitparams (cs : List Char) : List Char × List Char :=
  if '/' ∈ cs then
    match splitLast '/' cs with
    | some (before, after) =>
      match splitAtFirst ';' after with
      | none => (cs, [])
      | some (a, b) => (before ++ '/' :: a, b)
    | none => (cs, [])
  else
    match splitAtFirst ';' cs with
    | none => (cs, [])
    | some (a, b) => (a, b)

/-- `urllib.parse.urlparse`: `urlsplit` plus the path-parameter split. -/
def urlparse (url : String) : Except PyErr ParseResult :=
  match urlsplit url with
  | .error e => .error e
  | .ok r =>
    let pp := splitparams r.path.toList
    .ok { r with path := String.mk pp.1, params := String.mk pp.2 }

/-- The `hostname` attribute of a parse result, from the netloc: the part
after the last `@`, then up to the port separator (bracket-delimited for IPv6
literals), lowercased; `none` when empty. -/
def hostnameOf (netloc : String) : Option String :=
  let hostinfo :=
    match splitLast '@' netloc.toList with
    | some (_, after) => after
    | none => netloc.toList
  let hostpart :=
    match splitAtFirst '[' hostinfo with
    | some (_, bracketed) =>
      match splitAtFirst ']' bracketed with
      | some (h, _) => h
      | none => bracketed
    | none =>
      match splitAtFirst ':' hostinfo with
      | some (h, _) => h
      | none => hostinfo
  if hostpart = [] then none
  else some (String.mk (hostpart.map Char.toLower))

/-- Value of a hexadecimal digit, for percent-decoding. -/
def hexVal (c : Char) : Option Nat :=
  if c.isDigit then some (c.toNat - 48)
  else if 'a' ≤ c ∧ c ≤ 'f' then some (c.toNat - 87)
  else if 'A' ≤ c ∧ c ≤ 'F' then some (c.toNat - 55)
  else none

/-- `urllib.parse.unquote` on ASCII text: decode `%XX` escapes, leaving
malformed escapes untouched. -/
def pyUnquote : List Char → List Char
  | [] => []
  | '%' :: a :: b :: rest =>
    match hexVal a, hexVal b with
    | some ha, some hb => Char.ofNat (16 * ha + hb) :: pyUnquote rest
    | _, _ => '%' :: pyUnquote (a :: b :: rest)
  | c :: rest => c :: pyUnquote rest

/-- The distinct keys of `urllib.parse.parse_qs`: fields split at `&`; a field
with no `=` or with an empty value is dropped (blank values are not kept); the
key has `+` turned into a space and percent escapes decoded. -/
def parse_qs_keys (query : String) : List String :=
  ((query.toList.splitOnP (fun c => c = '&')).filterMap (fun field =>
    if field = [] then none
    else
      match splitAtFirst '=' field with
      | none => none
      | some (k, v) =>
        if v = [] then none
        else some (String.mk (pyUnquote (k.map (fun c => if c = '+' then ' ' else c)))))).dedup

/-- `DOKU_MEDIA_PARAMS` from `scraper.py` (line 7). -/
def DOKU_MEDIA_PARAMS : List String :=
  ["do", "tab_files", "tab_details", "image", "ns"]

/-- `invalid_query_parameters` from `valid_query` (`scraper.py` lines
463-485). -/
def invalid_query_parameters : List String :=
  ["do", "media", "ical", "idx", "sid", "rev", "rev2", "action", "version",
   "tab_files", "tab_details", "a", "h", "hb", "sf", "outlook-ical", "C", "O",
   "share", "format", "replytocom"]

/-- `valid_query` from `scraper.py` (lines 448-496). -/
def valid_query (parsed : ParseResult) : Bool :=
  let q := parse_qs_keys parsed.query
  if q.any (fun k => DOKU_MEDIA_PARAMS.contains k) then false
  else if 100 < q.length then false
  else if q.any (fun k => invalid_query_parameters.contains k) then false
  else true

/-- Matches the regex `/\d{4}/\d{2}/\d{2}` at the head of the list. -/
def dateSlashAt : List Char → Bool
  | '/' :: a :: b :: c :: d :: '/' :: e :: f :: '/' :: g :: h :: _ =>
    a.isDigit && b.isDigit && c.isDigit && d.isDigit && e.isDigit &&
    f.isDigit && g.isDigit && h.isDigit
  | _ => false

/-- Matches the regex `/day/\d{4}-\d{2}-\d{2}` at the head of the list. -/
def dayDateAt : List Char → Bool
  | '/' :: 'd' :: 'a' :: 'y' :: '/' :: a :: b :: c :: d :: '-' :: e :: f :: '-' :: g :: h :: _ =>
    a.isDigit && b.isDigit && c.isDigit && d.isDigit && e.isDigit &&
    f.isDigit && g.isDigit && h.isDigit
  | _ => false

/-- Matches the regex `date=\d{4}-\d{2}-\d{2}` at the head of the list. -/
def dateQueryAt : List Char → Bool
  | 'd' :: 'a' :: 't' :: 'e' :: '=' :: a :: b :: c :: d :: '-' :: e :: f :: '-' :: g :: h :: _ =>
    a.isDigit && b.isDigit && c.isDigit && d.isDigit && e.isDigit &&
    f.isDigit && g.isDigit && h.isDigit
  | _ => false

/-- `re.search`: does the head pattern match at some position? -/
def searchPat (patAt : List Char → Bool) : List Char → Bool
  | [] => patAt []
  | c :: rest => patAt (c :: rest) || searchPat patAt rest

/-- Matches the regex `/\d{4}-\d{2}$`: the list ends with slash, four digits,
a hyphen and two digits. -/
def yearMonthEnd (cs : List Char) : Bool :=
  match cs.reverse with
  | f :: e :: '-' :: d :: c :: b :: a :: '/' :: _ =>
    f.isDigit && e.isDigit && d.isDigit && c.isDigit && b.isDigit && a.isDigit
  | _ => false

/-- The trap-pattern disjunction of `is_valid` (`scraper.py` lines 399-419):
date-like path patterns and the calendar/event/timeline/auth-page/dataset
markers, over the lowercased path and query. -/
def trap_condition (parsed : ParseResult) : Bool :=
  let pl := pyLower parsed.path
  let ql := pyLower parsed.query
  strContains pl "timeline" || strContains pl "ml/datasets" ||
  strContains pl "/events/" || strContains pl "tribe" || strContains ql "tribe" ||
  strContains pl "wp-login" || strContains pl "/auth/" || strContains pl "/login" ||
  strContains pl "/register" || strContains pl "ical" || strContains ql "ical" ||
  strContains pl "eppstein/pix" || strContains pl "doku.php" ||
  strContains pl "dataset" || strContains pl "sld" ||
  searchPat dateSlashAt parsed.path.toList ||
  searchPat dayDateAt parsed.path.toList ||
  yearMonthEnd parsed.path.toList ||
  searchPat dateQueryAt parsed.query.toList

/-- The alternatives of the file-extension regex in `is_valid` (lines
431-441), with `jpe?g` and `tiff?` expanded. -/
def media_extensions : List String :=
  ["css", "js", "bmp", "gif", "jpeg", "jpg", "ico", "png", "tiff", "tif",
   "mid", "mp2", "mp3", "mp4", "wav", "avi", "mov", "mpeg", "ram", "m4v",
   "mkv", "ogg", "ogv", "pdf", "ps", "eps", "tex", "ppt", "pptx", "doc",
   "docx", "xls", "xlsx", "names", "data", "dat", "exe", "bz2", "tar", "msi",
   "bin", "7z", "psd", "dmg", "iso", "epub", "dll", "cnf", "tgz", "sha1",
   "thmx", "mso", "arff", "rtf", "jar", "csv", "war", "java", "bam", "svg",
   "ppsx", "pps", "rm", "smil", "wmv", "swf", "wma", "zip", "rar", "gz"]

/-- The file-extension regex `.*\.(css|…|gz)$` of `is_valid` on the lowercased
path: the path ends in a dot followed by one of the listed extensions.  (The
regex nuance of `$` also matching before a trailing newline is not modelled;
URL paths here are newline-free.) -/
def extension_match (pathLower : String) : Bool :=
  media_extensions.any (fun e => pyEndsWith pathLower ("." ++ e))

/-- `allowed_domains` from `is_valid` (`scraper.py` lines 384-389). -/
def allowed_domains : List String :=
  [".ics.uci.edu", ".cs.uci.edu", ".informatics.uci.edu", ".stat.uci.edu"]

/-- The body of `is_valid`'s `try` block (`scraper.py` lines 391-442), with
the early `return False` statements written as a cascade of conditionals. -/
def is_valid_body (url : String) : Except PyErr Bool :=
  match urlparse url with
  | .error e => .error e
  | .ok parsed =>
    if ¬ (parsed.scheme = "http" ∨ parsed.scheme = "https") then .ok false
    else
      let host := pyLower ((hostnameOf parsed.netloc).getD "")
      if parsed.fragment ≠ "" then .ok false
      else if trap_condition parsed then .ok false
      else if host = "gitlab.ics.uci.edu" then .ok false
      else if ¬ (allowed_domains.any (fun d => pyEndsWith host d)) then .ok false
      else if ¬ valid_query parsed then .ok false
      else .ok (! extension_match (pyLower parsed.path))

/-- `is_valid` from `scraper.py` (lines 367-445): the `try` body with an
`except TypeError` handler returning `False`; any other exception — notably
the `ValueError` that `urlparse` raises on a netloc with unbalanced square
brackets — propagates out of the function. -/
def is_valid (url : String) : Except PyErr Bool :=
  match is_valid_body url with
  | .error .typeError => .ok false
  | r => r

/-! ## Theorems about `is_valid` -/

/-- Whenever the try-block body of `is_valid` produces `False`, so does
`is_valid` itself. -/
lemma is_valid_of_body_false (url : String) (h : is_valid_body url = .ok false) :
    is_valid url = .ok false := by
  unfold is_valid
  rw [h]

/-- C3: the claim states that `is_valid` never propagates an exception, every
exception being converted to a `False` result.  The code violates this: its
`try` block is guarded only by `except TypeError`, while `urlparse` raises
`ValueError` on a URL whose netloc has an unbalanced square bracket, so
`is_valid("http://[")` raises `ValueError` instead of returning `False`. -/
theorem C3_is_valid_propagates_valueError :
    is_valid "http://[" = .error .valueError := by
  rfl

/-- C10: for every URL whose parsed fragment component is non-empty,
`is_valid` returns `False` — the trap filter itself rejects any URL still
carrying a fragment (either at the scheme check or at the fragment check),
independently of upstream fragment stripping. -/
theorem C10_fragment_rejected (url : String) (p : ParseResult)
    (hp : urlparse url = .ok p) (hf : p.fragment ≠ "") :
    is_valid url = .ok false := by
  apply is_valid_of_body_false
  unfold is_valid_body
  rw [hp]
  by_cases hs : p.scheme = "http" ∨ p.scheme = "https"
  · simp [hs, hf]
  · simp [hs]

/-- C10 witness: the trap filter rejects a concrete in-scope URL carrying a
fragment. -/
theorem C10_witness : is_valid "https://www.ics.uci.edu/page#sec" = .ok false :=
  C10_fragment_rejected "https://www.ics.uci.edu/page#sec"
    ⟨"https", "www.ics.uci.edu", "/page", "", "", "sec"⟩ (by rfl) (by decide)

/-- C8: every URL whose parsed path or query triggers the trap-pattern
disjunction (date-like `/YYYY/MM/DD`, `/day/YYYY-MM-DD`, trailing `/YYYY-MM`,
or the enumerated calendar/event/timeline/auth-page/dataset markers) is
rejected by `is_valid`; in particular
`is_valid("https://www.ics.uci.edu/events/2024-01-15")` returns `False`. -/
theorem C8_trap_rejected :
    (∀ url p, urlparse url = .ok p → trap_condition p = true →
      is_valid url = .ok false) ∧
    is_valid "https://www.ics.uci.edu/events/2024-01-15" = .ok false := by
  have main : ∀ url p, urlparse url = .ok p → trap_condition p = true →
      is_valid url = .ok false := by
    intro url p hp ht
    apply is_valid_of_body_false
    unfold is_valid_body
    rw [hp]
    by_cases hs : p.scheme = "http" ∨ p.scheme = "https"
    · by_cases hf : p.fragment = ""
      · simp [hs, hf, ht]
      · simp [hs, hf]
    · simp [hs]
  refine ⟨main, ?_⟩
  exact main "https://www.ics.uci.edu/events/2024-01-15"
    ⟨"https", "www.ics.uci.edu", "/events/2024-01-15", "", "", ""⟩ (by rfl) (by decide)

/-- C8 witness: the universal part applied to the concrete date-trap URL of
the specification's end-to-end scenario C. -/
theorem C8_witness : is_valid "https://www.ics.uci.edu/events/2024-01-15" = .ok false :=
  C8_trap_rejected.1 "https://www.ics.uci.edu/events/2024-01-15"
    ⟨"https", "www.ics.uci.edu", "/events/2024-01-15", "", "", ""⟩ (by rfl) (by decide)

/-! ## Theorems about `is_near_duplicate` -/

/-- The guarded cross-multiplied comparison performed by `is_near_duplicate`
coincides with the rational Jaccard-similarity threshold `0.95` of the
specification, for a non-empty fingerprint. -/
lemma near_cond_iff (fp seen : Finset Nat) (hfp : fp ≠ ∅) :
    (0 < (fp ∪ seen).card ∧ 19 * (fp ∪ seen).card ≤ 20 * (fp ∩ seen).card) ↔
      95 / 100 ≤ jaccardQ fp seen := by
  have hu : 0 < (fp ∪ seen).card := by
    rcases Finset.nonempty_iff_ne_empty.2 hfp with ⟨x, hx⟩
    exact Finset.card_pos.2 ⟨x, Finset.mem_union_left _ hx⟩
  have hcast : (0 : ℚ) < ((fp ∪ seen).card : ℚ) := by exact_mod_cast hu
  unfold jaccardQ
  rw [div_le_div_iff₀ (by norm_num) hcast]
  constructor
  · rintro ⟨-, h⟩
    have h' : 95 * (fp ∪ seen).card ≤ (fp ∩ seen).card * 100 := by omega
    exact_mod_cast h'
  · intro h
    have h' : 95 * (fp ∪ seen).card ≤ (fp ∩ seen).card * 100 := by exact_mod_cast h
    exact ⟨hu, by omega⟩

/-- C1: functional specification of `is_near_duplicate`.  Fewer than 10 tokens
yields `False` with the store unchanged; otherwise the fingerprint consists
exactly of the DJB2 hashes of the contiguous 3-token shingles that are
divisible by 4; an empty fingerprint yields `False` without registering;
a registered fingerprint with Jaccard similarity at least 0.95 yields `True`
without registering; otherwise the fingerprint is registered and the result is
`False`. -/
theorem C1_near_duplicate_spec (tokens : List String) (store : Finset (Finset Nat)) :
    (tokens.length < 10 → is_near_duplicate tokens store = (false, store)) ∧
    (10 ≤ tokens.length →
      (∀ h, h ∈ nd_fingerprint tokens ↔
          h % 4 = 0 ∧ ∃ l, l.length = 3 ∧ List.IsInfix l tokens ∧
            h = djb2_hash (" ".intercalate l)) ∧
      (nd_fingerprint tokens = ∅ → is_near_duplicate tokens store = (false, store)) ∧
      (nd_fingerprint tokens ≠ ∅ →
        ((∃ seen ∈ store, 95 / 100 ≤ jaccardQ (nd_fingerprint tokens) seen) →
            is_near_duplicate tokens store = (true, store)) ∧
        (¬ (∃ seen ∈ store, 95 / 100 ≤ jaccardQ (nd_fingerprint tokens) seen) →
            is_near_duplicate tokens store =
              (false, insert (nd_fingerprint tokens) store)))) := by
  constructor
  · intro h10
    unfold is_near_duplicate
    rw [if_pos h10]
  · intro h10
    have hnotlt : ¬ tokens.length < 10 := not_lt.2 h10
    refine ⟨?_, ?_, ?_⟩
    · intro h
      unfold nd_fingerprint
      simp only [Finset.mem_filter, List.mem_toFinset, List.mem_map, List.mem_range]
      constructor
      · rintro ⟨⟨i, hi, rfl⟩, hm⟩
        refine ⟨hm, (tokens.drop i).take 3, ?_, ?_, rfl⟩
        · rw [List.length_take, List.length_drop]
          omega
        · exact (List.take_prefix 3 (tokens.drop i)).isInfix.trans
            (tokens.drop_suffix i).isInfix
      · rintro ⟨hm, l, hl3, hinf, rfl⟩
        rcases hinf with ⟨u, v, huv⟩
        refine ⟨⟨u.length, ?_, ?_⟩, hm⟩
        · have ht : tokens.length = u.length + l.length + v.length := by
            rw [← huv]
            simp only [List.length_append]
          omega
        · have hd : tokens.drop u.length = l ++ v := by
            rw [← huv, List.append_assoc, List.drop_left]
          rw [hd, ← hl3, List.take_left]
    · intro hfp
      unfold is_near_duplicate
      rw [if_neg hnotlt, if_pos hfp]
    · intro hfp
      constructor
      · intro hex
        unfold is_near_duplicate
        rw [if_neg hnotlt, if_neg hfp, if_pos]
        rcases hex with ⟨seen, hseen, hj⟩
        exact ⟨seen, hseen, (near_cond_iff _ seen hfp).2 hj⟩
      · intro hnex
        unfold is_near_duplicate
        rw [if_neg hnotlt, if_neg hfp, if_neg]
        intro hex
        rcases hex with ⟨seen, hseen, hc⟩
        exact hnex ⟨seen, hseen, (near_cond_iff _ seen hfp).1 hc⟩

/-- C1 witness: a two-token list is below the minimum token count, so it is
declared not-a-duplicate and the store is untouched. -/
theorem C1_witness : is_near_duplicate ["alpha", "beta"] ∅ = (false, ∅) :=
  (C1_near_duplicate_spec ["alpha", "beta"] ∅).1 (by decide)

/-! ## Lemmas about the `extract_next_links` pipeline -/

/-- The exact-duplicate hash set only ever grows across a pipeline call. -/
lemma extract_content_hashes_subset (o : Oracles) (url : String)
    (resp : Option Response) (s : CrawlState) :
    s.CONTENT_HASHES ⊆ (extract_next_links o url resp s).2.CONTENT_HASHES := by
  cases resp with
  | none => exact Finset.Subset.refl _
  | some r =>
    cases hr : r.raw_response with
    | none =>
      unfold extract_next_links
      simp only [hr]
      exact Finset.Subset.refl _
    | some rr =>
      unfold extract_next_links
      simp only [hr]
      split_ifs <;> simp [Finset.subset_insert, Finset.Subset.refl]

/-- The set of recorded unique pages only ever grows across a pipeline call. -/
lemma extract_total_subset (o : Oracles) (url : String)
    (resp : Option Response) (s : CrawlState) :
    s.TOTAL_UNIQUE_PAGES ⊆ (extract_next_links o url resp s).2.TOTAL_UNIQUE_PAGES := by
  cases resp with
  | none => exact Finset.Subset.refl _
  | some r =>
    cases hr : r.raw_response with
    | none =>
      unfold extract_next_links
      simp only [hr]
      exact Finset.Subset.refl _
    | some rr =>
      unfold extract_next_links
      simp only [hr]
      split_ifs <;> simp [Finset.subset_insert, Finset.Subset.refl]

/-- Across one pipeline call the longest-page record is either unchanged or
replaced by one with a strictly larger word count. -/
lemma extract_longest_step (o : Oracles) (url : String)
    (resp : Option Response) (s : CrawlState) :
    (extract_next_links o url resp s).2.LONGEST_PAGE = s.LONGEST_PAGE ∨
      s.LONGEST_PAGE.word_count <
        (extract_next_links o url resp s).2.LONGEST_PAGE.word_count := by
  cases resp with
  | none => exact Or.inl rfl
  | some r =>
    cases hr : r.raw_response with
    | none =>
      unfold extract_next_links
      simp [hr]
    | some rr =>
      unfold extract_next_links
      simp only [hr]
      split_ifs <;> simp_all

/-- The longest-page word count is monotone across one pipeline call. -/
lemma extract_longest_mono (o : Oracles) (url : String)
    (resp : Option Response) (s : CrawlState) :
    s.LONGEST_PAGE.word_count ≤
      (extract_next_links o url resp s).2.LONGEST_PAGE.word_count := by
  rcases extract_longest_step o url resp s with h | h
  · rw [h]
  · exact le_of_lt h

/-- Unfolding `runCalls` over a first call. -/
lemma runCalls_cons (o : Oracles) (c : String × Option Response)
    (cs : List (String × Option Response)) (s : CrawlState) :
    runCalls o (c :: cs) s = runCalls o cs (extract_next_links o c.1 c.2 s).2 :=
  rfl

/-- The exact-duplicate hash set only ever grows across a call sequence. -/
lemma runCalls_content_hashes_subset (o : Oracles)
    (calls : List (String × Option Response)) (s : CrawlState) :
    s.CONTENT_HASHES ⊆ (runCalls o calls s).CONTENT_HASHES := by
  induction calls generalizing s with
  | nil => exact Finset.Subset.refl _
  | cons c cs ih =>
    rw [runCalls_cons]
    exact (extract_content_hashes_subset o c.1 c.2 s).trans (ih _)

/-- A response whose body hash is already recorded is rejected at the
exact-duplicate stage: no links and a completely unchanged state. -/
lemma extract_dup_rejected (o : Oracles) (url : String) (r : Response)
    (rr : RawResponse) (s : CrawlState)
    (hrr : r.raw_response = some rr) (hst : r.status = 200)
    (hct : strContains (pyLower (rr.contentType.getD "")) "text/html" = true)
    (hmem : djb2_hash_bytes rr.content ∈ s.CONTENT_HASHES) :
    extract_next_links o url (some r) s = ([], s) := by
  unfold extract_next_links
  simp only [hrr]
  simp [hst, hct, hmem]

/-- A response that passes the status, content-type and exact-duplicate
checks registers its body hash, whatever happens afterwards. -/
lemma extract_hash_registered (o : Oracles) (url : String) (r : Response)
    (rr : RawResponse) (s : CrawlState)
    (hrr : r.raw_response = some rr) (hst : r.status = 200)
    (hct : strContains (pyLower (rr.contentType.getD "")) "text/html" = true)
    (hfresh : djb2_hash_bytes rr.content ∉ s.CONTENT_HASHES) :
    (extract_next_links o url (some r) s).2.CONTENT_HASHES =
      insert (djb2_hash_bytes rr.content) s.CONTENT_HASHES := by
  unfold extract_next_links
  simp only [hrr]
  simp only [hst, hct, hfresh, ne_eq, not_true_eq_false, if_false,
    Bool.not_eq_true, not_false_eq_true, if_true]
  split_ifs <;> simp

/-- The state after only the body-hash registration of a pipeline call. -/
def with_hash (s : CrawlState) (h : Nat) : CrawlState :=
  { s with CONTENT_HASHES := insert h s.CONTENT_HASHES }

/-! ## Theorems about `extract_next_links` -/

/-- C5: a 200-status HTML response that is not an exact duplicate but whose
stop-word-filtered word count is below the floor of 50 — or below 100 with a
body over 1,000,000 bytes — is rejected: no links, and the only state change
is the already-performed registration of the body hash (no statistics are
updated). -/
theorem C5_low_value_rejected (o : Oracles) (url : String) (r : Response)
    (rr : RawResponse) (s : CrawlState)
    (hrr : r.raw_response = some rr) (hst : r.status = 200)
    (hct : strContains (pyLower (rr.contentType.getD "")) "text/html" = true)
    (hfresh : djb2_hash_bytes rr.content ∉ s.CONTENT_HASHES)
    (hlow : (filtered_words o rr.content).length < 50 ∨
      ((filtered_words o rr.content).length < 100 ∧ MAX_SIZE < rr.content.length)) :
    extract_next_links o url (some r) s =
      ([], with_hash s (djb2_hash_bytes rr.content)) := by
  unfold extract_next_links
  simp only [hrr]
  by_cases h50 : (filtered_words o rr.content).length < 50
  · unfold filtered_words at h50
    simp [hst, hct, hfresh, h50, with_hash]
  · have hx : (filtered_words o rr.content).length < 100 ∧
        MAX_SIZE < rr.content.length := by
      rcases hlow with h | h
      · exact absurd h h50
      · exact h
    unfold filtered_words at h50 hx
    simp [hst, hct, hfresh, h50, hx.1, hx.2, with_hash]

/-- C5 witness data: an oracle with constant parse output, and a small
200-status HTML response. -/
def witness_oracle (txt : String) (anchors : List String) : Oracles :=
  ⟨fun _ => ⟨txt, anchors⟩,
   fun base rel => if rel = "bad" then .error .valueError else .ok (base ++ "/" ++ rel)⟩

/-- Page text with exactly 40 filtered words. -/
def text40 : String := " ".intercalate (List.replicate 40 "lorem")

/-- A 200-status HTML response with body bytes `[104, 105]`. -/
def resp40 : Response :=
  ⟨200, some ⟨"https://www.ics.uci.edu/a", some "text/html", [104, 105]⟩⟩

/-- C5 witness: a page with 40 filtered words is rejected with zero links and
no statistics update. -/
theorem C5_witness :
    extract_next_links (witness_oracle text40 []) "u" (some resp40) initial_state =
      ([], with_hash initial_state (djb2_hash_bytes [104, 105])) :=
  C5_low_value_rejected (witness_oracle text40 []) "u" resp40
    ⟨"https://www.ics.uci.edu/a", some "text/html", [104, 105]⟩ initial_state
    rfl rfl (by decide) (by decide) (Or.inl (by decide))

/-- C6: across any sequence of pipeline calls the number of unique pages and
the longest-page word count never decrease, and a single call replaces the
longest-page record only when the new page's word count strictly exceeds the
current one (so ties keep the first page seen). -/
theorem C6_aggregator_monotone (o : Oracles)
    (calls : List (String × Option Response)) (s : CrawlState) :
    s.TOTAL_UNIQUE_PAGES.card ≤ (runCalls o calls s).TOTAL_UNIQUE_PAGES.card ∧
    s.LONGEST_PAGE.word_count ≤ (runCalls o calls s).LONGEST_PAGE.word_count ∧
    ∀ url resp,
      (extract_next_links o url resp s).2.LONGEST_PAGE = s.LONGEST_PAGE ∨
        s.LONGEST_PAGE.word_count <
          (extract_next_links o url resp s).2.LONGEST_PAGE.word_count := by
  refine ⟨?_, ?_, fun url resp => extract_longest_step o url resp s⟩
  · induction calls generalizing s with
    | nil => exact le_refl _
    | cons c cs ih =>
      rw [runCalls_cons]
      exact le_trans
        (Finset.card_le_card (extract_total_subset o c.1 c.2 s)) (ih _)
  · induction calls generalizing s with
    | nil => exact le_refl _
    | cons c cs ih =>
      rw [runCalls_cons]
      exact le_trans (extract_longest_mono o c.1 c.2 s) (ih _)

/-- C2: two responses with byte-identical bodies, both 200-status HTML: the
first passes the exact-duplicate check and registers the body hash; after any
intervening calls, the second is rejected at the exact-duplicate stage with an
empty link list and a completely unchanged state (in particular its URL is not
added to the unique-page set). -/
theorem C2_exact_duplicate_invariant (o : Oracles) (s0 : CrawlState)
    (url1 url2 : String) (r1 r2 : Response) (rr1 rr2 : RawResponse)
    (mid : List (String × Option Response))
    (h1 : r1.raw_response = some rr1) (h2 : r2.raw_response = some rr2)
    (hs1 : r1.status = 200) (hs2 : r2.status = 200)
    (hc1 : strContains (pyLower (rr1.contentType.getD "")) "text/html" = true)
    (hc2 : strContains (pyLower (rr2.contentType.getD "")) "text/html" = true)
    (hbody : rr2.content = rr1.content)
    (hfresh : djb2_hash_bytes rr1.content ∉ s0.CONTENT_HASHES) :
    (extract_next_links o url1 (some r1) s0).2.CONTENT_HASHES =
        insert (djb2_hash_bytes rr1.content) s0.CONTENT_HASHES ∧
    extract_next_links o url2 (some r2)
        (runCalls o mid (extract_next_links o url1 (some r1) s0).2) =
      ([], runCalls o mid (extract_next_links o url1 (some r1) s0).2) := by
  have hreg := extract_hash_registered o url1 r1 rr1 s0 h1 hs1 hc1 hfresh
  refine ⟨hreg, ?_⟩
  apply extract_dup_rejected o url2 r2 rr2 _ h2 hs2 hc2
  rw [hbody]
  apply runCalls_content_hashes_subset
  rw [hreg]
  exact Finset.mem_insert_self _ _

/-- A second 200-status HTML response with the same body bytes as `resp40`
but a different effective URL. -/
def resp40b : Response :=
  ⟨200, some ⟨"https://www.ics.uci.edu/b", some "text/html", [104, 105]⟩⟩

/-- C2 witness: feeding the identical two-byte body twice, the first call
registers the hash and the second call is rejected unchanged. -/
theorem C2_witness :
    (extract_next_links (witness_oracle text40 []) "u1" (some resp40) initial_state).2.CONTENT_HASHES =
        insert (djb2_hash_bytes [104, 105]) initial_state.CONTENT_HASHES ∧
    extract_next_links (witness_oracle text40 []) "u2" (some resp40b)
        (runCalls (witness_oracle text40 []) []
          (extract_next_links (witness_oracle text40 []) "u1" (some resp40) initial_state).2) =
      ([], runCalls (witness_oracle text40 []) []
          (extract_next_links (witness_oracle text40 []) "u1" (some resp40) initial_state).2) :=
  C2_exact_duplicate_invariant (witness_oracle text40 []) initial_state "u1" "u2"
    resp40 resp40b ⟨"https://www.ics.uci.edu/a", some "text/html", [104, 105]⟩
    ⟨"https://www.ics.uci.edu/b", some "text/html", [104, 105]⟩ []
    rfl rfl rfl rfl (by decide) (by decide) rfl (by decide)

/-- C9: a 200-status HTML response with a fresh body hash registers that hash
even when it is then rejected by the word-count, body-size or near-duplicate
check: the call returns no links, records no unique page, yet inserts the
hash — so any later byte-identical 200-status HTML response is rejected at the
exact-duplicate stage although no copy of the content was ever admitted. -/
theorem C9_hash_registered_before_later_checks (o : Oracles) (url : String)
    (r : Response) (rr : RawResponse) (s : CrawlState)
    (hrr : r.raw_response = some rr) (hst : r.status = 200)
    (hct : strContains (pyLower (rr.contentType.getD "")) "text/html" = true)
    (hfresh : djb2_hash_bytes rr.content ∉ s.CONTENT_HASHES)
    (hrej : (filtered_words o rr.content).length < 50 ∨
      ((filtered_words o rr.content).length < 100 ∧ MAX_SIZE < rr.content.length) ∨
      (is_near_duplicate (filtered_words o rr.content)
          s.NEAR_DUPLICATE_FINGERPRINTS).1 = true) :
    (extract_next_links o url (some r) s).1 = [] ∧
    (extract_next_links o url (some r) s).2.CONTENT_HASHES =
      insert (djb2_hash_bytes rr.content) s.CONTENT_HASHES ∧
    (extract_next_links o url (some r) s).2.TOTAL_UNIQUE_PAGES =
      s.TOTAL_UNIQUE_PAGES ∧
    ∀ url2 r2 rr2, r2.raw_response = some rr2 → r2.status = 200 →
      strContains (pyLower (rr2.contentType.getD "")) "text/html" = true →
      rr2.content = rr.content →
      extract_next_links o url2 (some r2) (extract_next_links o url (some r) s).2 =
        ([], (extract_next_links o url (some r) s).2) := by
  have hmain : (extract_next_links o url (some r) s).1 = [] ∧
      (extract_next_links o url (some r) s).2.TOTAL_UNIQUE_PAGES =
        s.TOTAL_UNIQUE_PAGES := by
    unfold extract_next_links
    simp only [hrr]
    by_cases h50 : (filtered_words o rr.content).length < 50
    · unfold filtered_words at h50
      simp [hst, hct, hfresh, h50]
    · by_cases hbig : (filtered_words o rr.content).length < 100 ∧
          MAX_SIZE < rr.content.length
      · unfold filtered_words at h50 hbig
        simp [hst, hct, hfresh, h50, hbig.1, hbig.2]
      · have hnd : (is_near_duplicate (filtered_words o rr.content)
            s.NEAR_DUPLICATE_FINGERPRINTS).1 = true := by
          rcases hrej with h | h | h
          · exact absurd h h50
          · exact absurd h hbig
          · exact h
        unfold filtered_words at h50 hbig hnd
        simp [hst, hct, hfresh, h50, hbig, hnd]
  have hreg := extract_hash_registered o url r rr s hrr hst hct hfresh
  refine ⟨hmain.1, hreg, hmain.2, ?_⟩
  intro url2 r2 rr2 h2 hs2 hc2 hb2
  apply extract_dup_rejected o url2 r2 rr2 _ h2 hs2 hc2
  rw [hb2, hreg]
  exact Finset.mem_insert_self _ _

/-- C9 witness: a 40-word page is rejected by the word-count check yet its
hash is registered, and a byte-identical follow-up response is rejected at the
exact-duplicate stage. -/
theorem C9_witness :
    (extract_next_links (witness_oracle text40 []) "w1" (some resp40) initial_state).1 = [] ∧
    extract_next_links (witness_oracle text40 []) "w2" (some resp40b)
        (extract_next_links (witness_oracle text40 []) "w1" (some resp40) initial_state).2 =
      ([], (extract_next_links (witness_oracle text40 []) "w1" (some resp40) initial_state).2) := by
  have h := C9_hash_registered_before_later_checks (witness_oracle text40 [])
    "w1" resp40 ⟨"https://www.ics.uci.edu/a", some "text/html", [104, 105]⟩
    initial_state rfl rfl (by decide) (by decide) (Or.inl (by decide))
  exact ⟨h.1, h.2.2.2 "w2" resp40b
    ⟨"https://www.ics.uci.edu/b", some "text/html", [104, 105]⟩ rfl rfl (by decide) rfl⟩

/-! ## C7: link extraction -/

/-- For an admitted page the returned list is the deduplicated image of the
per-anchor processing step, resolved against the effective URL. -/
lemma extract_links_eq (o : Oracles) (url : String) (r : Response)
    (rr : RawResponse) (s : CrawlState)
    (hrr : r.raw_response = some rr) (hst : r.status = 200)
    (hct : strContains (pyLower (rr.contentType.getD "")) "text/html" = true)
    (hfresh : djb2_hash_bytes rr.content ∉ s.CONTENT_HASHES)
    (h50 : ¬ (filtered_words o rr.content).length < 50)
    (hsize : ¬ ((filtered_words o rr.content).length < 100 ∧
      MAX_SIZE < rr.content.length))
    (hnd : (is_near_duplicate (filtered_words o rr.content)
        s.NEAR_DUPLICATE_FINGERPRINTS).1 = false)
    (heff : rr.url ≠ "") :
    (extract_next_links o url (some r) s).1 =
      ((o.parseHtml rr.content).anchors.filterMap (fun a =>
        if pyStartsWith (pyTrim a) "mailto:" || pyStartsWith (pyTrim a) "javascript:" ||
            pyStartsWith (pyTrim a) "tel:" then none
        else
          match o.urljoin rr.url (pyTrim a) with
          | .error _ => none
          | .ok absolute_url => some (normalize (urldefrag absolute_url).1))).dedup := by
  unfold extract_next_links
  simp only [hrr]
  unfold filtered_words at h50 hsize hnd
  simp [hst, hct, hfresh, h50, hsize, hnd, heff]

/-- When the effective URL is non-empty, the pipeline result does not depend
on the originally requested URL. -/
lemma extract_url_independent (o : Oracles) (url url2 : String) (r : Response)
    (rr : RawResponse) (s : CrawlState)
    (hrr : r.raw_response = some rr) (heff : rr.url ≠ "") :
    extract_next_links o url2 (some r) s = extract_next_links o url (some r) s := by
  unfold extract_next_links
  simp [hrr, heff]

/-- C7: for an admitted page the returned link list has no duplicates; every
returned link comes from an anchor not starting with `mailto:`, `javascript:`
or `tel:`, resolved against the effective URL, defragmented and normalized;
every such successfully resolved anchor is returned; an anchor whose
resolution errors is skipped without failing the page (the others are still
returned); and the result does not depend on the originally requested URL. -/
theorem C7_link_extraction (o : Oracles) (url : String) (r : Response)
    (rr : RawResponse) (s : CrawlState)
    (hrr : r.raw_response = some rr) (hst : r.status = 200)
    (hct : strContains (pyLower (rr.contentType.getD "")) "text/html" = true)
    (hfresh : djb2_hash_bytes rr.content ∉ s.CONTENT_HASHES)
    (h50 : ¬ (filtered_words o rr.content).length < 50)
    (hsize : ¬ ((filtered_words o rr.content).length < 100 ∧
      MAX_SIZE < rr.content.length))
    (hnd : (is_near_duplicate (filtered_words o rr.content)
        s.NEAR_DUPLICATE_FINGERPRINTS).1 = false)
    (heff : rr.url ≠ "") :
    (extract_next_links o url (some r) s).1.Nodup ∧
    (∀ x ∈ (extract_next_links o url (some r) s).1,
      ∃ a ∈ (o.parseHtml rr.content).anchors,
        pyStartsWith (pyTrim a) "mailto:" = false ∧
        pyStartsWith (pyTrim a) "javascript:" = false ∧
        pyStartsWith (pyTrim a) "tel:" = false ∧
        ∃ au, o.urljoin rr.url (pyTrim a) = .ok au ∧
          x = normalize (urldefrag au).1) ∧
    (∀ a ∈ (o.parseHtml rr.content).anchors, ∀ au,
      pyStartsWith (pyTrim a) "mailto:" = false →
      pyStartsWith (pyTrim a) "javascript:" = false →
      pyStartsWith (pyTrim a) "tel:" = false →
      o.urljoin rr.url (pyTrim a) = .ok au →
      normalize (urldefrag au).1 ∈ (extract_next_links o url (some r) s).1) ∧
    (∀ url2, extract_next_links o url2 (some r) s =
      extract_next_links o url (some r) s) := by
  have hL := extract_links_eq o url r rr s hrr hst hct hfresh h50 hsize hnd heff
  refine ⟨?_, ?_, ?_, fun url2 => extract_url_independent o url url2 r rr s hrr heff⟩
  · rw [hL]
    exact List.nodup_dedup _
  · intro x hx
    rw [hL, List.mem_dedup] at hx
    rcases List.mem_filterMap.1 hx with ⟨a, ha, hfa⟩
    refine ⟨a, ha, ?_⟩
    by_cases hm : (pyStartsWith (pyTrim a) "mailto:" ||
        pyStartsWith (pyTrim a) "javascript:" || pyStartsWith (pyTrim a) "tel:") = true
    · rw [if_pos hm] at hfa
      exact absurd hfa (by simp)
    · have h3 : (pyStartsWith (pyTrim a) "mailto:" = false ∧
          pyStartsWith (pyTrim a) "javascript:" = false) ∧
          pyStartsWith (pyTrim a) "tel:" = false := by
        simpa [not_or] using hm
      rw [if_neg hm] at hfa
      cases hju : o.urljoin rr.url (pyTrim a) with
      | error e =>
        rw [hju] at hfa
        exact absurd hfa (by simp)
      | ok au =>
        rw [hju] at hfa
        exact ⟨h3.1.1, h3.1.2, h3.2, au, rfl, (Option.some.inj hfa).symm⟩
  · intro a ha au h1 h2 h3 hju
    rw [hL, List.mem_dedup]
    refine List.mem_filterMap.2 ⟨a, ha, ?_⟩
    rw [if_neg (by simp [h1, h2, h3]), hju]

/-- Page text with exactly 50 filtered words. -/
def text50 : String := " ".intercalate (List.replicate 50 "page")

/-- Anchor references for the C7 witness: a `mailto:` target, an ordinary
relative reference with surrounding whitespace, a reference on which the
witness `urljoin` raises, a repeated reference, and a `tel:` target. -/
def anchors50 : List String :=
  ["mailto:someone@site", " /sub ", "bad", "/sub", "tel:12345"]

/-- A 200-status HTML response with effective URL on the admitted page. -/
def resp50 : Response :=
  ⟨200, some ⟨"https://www.ics.uci.edu/base", some "text/html", [1, 2, 3]⟩⟩

/-- C7 witness: the admitted witness page yields a duplicate-free link list. -/
theorem C7_witness :
    (extract_next_links (witness_oracle text50 anchors50) "u" (some resp50)
      initial_state).1.Nodup :=
  (C7_link_extraction (witness_oracle text50 anchors50) "u" resp50
    ⟨"https://www.ics.uci.edu/base", some "text/html", [1, 2, 3]⟩ initial_state
    rfl rfl (by decide) (by decide) (by decide) (by decide) (by decide)
    (by decide)).1

/-! ## C4: near-duplicate threshold scenarios -/

/-- Sixty distinct tokens, the base sequence of the C4 scenarios. -/
def tokA : List String :=
  [
   "tok00", "tok01", "tok02", "tok03", "tok04", "tok05", "tok06", "tok07",
   "tok08", "tok09", "tok10", "tok11", "tok12", "tok13", "tok14", "tok15",
   "tok16", "tok17", "tok18", "tok19", "tok20", "tok21", "tok22", "tok23",
   "tok24", "tok25", "tok26", "tok27", "tok28", "tok29", "tok30", "tok31",
   "tok32", "tok33", "tok34", "tok35", "tok36", "tok37", "tok38", "tok39",
   "tok40", "tok41", "tok42", "tok43", "tok44", "tok45", "tok46", "tok47",
   "tok48", "tok49", "tok50", "tok51", "tok52", "tok53", "tok54", "tok55",
   "tok56", "tok57", "tok58", "tok59"]

/-- `tokA` with the word at position 30 replaced: the two sequences differ in
exactly one word out of sixty. -/
def tokB : List String := tokA.set 30 "zzz"

/-- `tokA` with the word at position 0 replaced by `wb`: again exactly one
word out of sixty differs, and for this pair the three affected shingle
hashes all fall outside the mod-4 sample, so the sampled fingerprints
coincide. -/
def tokP : List String := tokA.set 0 "wb"

/-- Sixty tokens over one vocabulary. -/
def tokC : List String :=
  [
   "left00", "left01", "left02", "left03", "left04", "left05", "left06",
   "left07", "left08", "left09", "left10", "left11", "left12", "left13",
   "left14", "left15", "left16", "left17", "left18", "left19", "left20",
   "left21", "left22", "left23", "left24", "left25", "left26", "left27",
   "left28", "left29", "left30", "left31", "left32", "left33", "left34",
   "left35", "left36", "left37", "left38", "left39", "left40", "left41",
   "left42", "left43", "left44", "left45", "left46", "left47", "left48",
   "left49", "left50", "left51", "left52", "left53", "left54", "left55",
   "left56", "left57", "left58", "left59"]

/-- Sixty tokens over a vocabulary disjoint from `tokC`. -/
def tokD : List String :=
  [
   "right00", "right01", "right02", "right03", "right04", "right05",
   "right06", "right07", "right08", "right09", "right10", "right11",
   "right12", "right13", "right14", "right15", "right16", "right17",
   "right18", "right19", "right20", "right21", "right22", "right23",
   "right24", "right25", "right26", "right27", "right28", "right29",
   "right30", "right31", "right32", "right33", "right34", "right35",
   "right36", "right37", "right38", "right39", "right40", "right41",
   "right42", "right43", "right44", "right45", "right46", "right47",
   "right48", "right49", "right50", "right51", "right52", "right53",
   "right54", "right55", "right56", "right57", "right58", "right59"]

/-- C4 counterexample: the claim fails as stated.  `tokB` differs from `tokA`
in exactly one word out of sixty (both far above the minimum token count),
yet after `tokA`'s fingerprint is registered `tokB` is not judged a
near-duplicate: the sampled fingerprints share 14 of 16 hashes, a Jaccard
similarity of 0.875 < 0.95. -/
theorem C4_counterexample :
    tokA.length = 60 ∧ tokB.length = 60 ∧
    ((tokA.zip tokB).countP (fun p => decide (p.1 ≠ p.2))) = 1 ∧
    (is_near_duplicate tokB (is_near_duplicate tokA ∅).2).1 = false :=
  ⟨by decide, by decide, by decide, by decide⟩

/-- C4 amended: a sixty-token pair differing in a single word is judged
near-duplicate for some such pairs — concretely `tokP` after `tokA` — but not
for all of them, since the judgment depends on the sampled fingerprints
reaching the 0.95 Jaccard threshold.  A sequence whose sampled fingerprint is
disjoint from every registered fingerprint is never judged a near-duplicate;
in particular the disjoint-vocabulary pair `tokC`/`tokD` is not. -/
theorem C4_amended :
    (tokP.length = 60 ∧
      ((tokA.zip tokP).countP (fun p => decide (p.1 ≠ p.2))) = 1 ∧
      (is_near_duplicate tokP (is_near_duplicate tokA ∅).2).1 = true) ∧
    (∀ tokens store, (∀ seen ∈ store, nd_fingerprint tokens ∩ seen = ∅) →
      (is_near_duplicate tokens store).1 = false) ∧
    (tokC.toFinset ∩ tokD.toFinset = ∅ ∧
      (is_near_duplicate tokD (is_near_duplicate tokC ∅).2).1 = false) := by
  refine ⟨⟨by decide, by decide, by decide⟩, ?_, by decide, by decide⟩
  intro tokens store hdis
  unfold is_near_duplicate
  split_ifs with h1 h2 h3
  · rfl
  · rfl
  · exfalso
    rcases h3 with ⟨seen, hseen, hu, hle⟩
    have hz : (nd_fingerprint tokens ∩ seen).card = 0 := by
      rw [hdis seen hseen]
      exact Finset.card_empty
    omega
  · rfl

/-- C4 witness for the amended claim: the disjoint-fingerprint part applied
to the empty store. -/
theorem C4_witness : (is_near_duplicate tokD ∅).1 = false :=
  C4_amended.2.1 tokD ∅ (by simp)

end WebCrawler
